import Mathlib

/-!
Shallow embedding of the radio / AutoDJ core of `src/index.js` (an Express
server relaying audio to listeners, switching between an AutoDJ rotation
and a live ingest feed).

The JavaScript program is single-threaded with interleaving at `await`
points; we model each read of the mutable globals that can race with a
request handler (the `isLive` flag and the `listeners` array inside the
chunk loop) as an explicit environment snapshot supplied per iteration.
-/

/-- A catalog entry, as built by `loadRSS` (`{ title, url }`). -/
structure Track where
  title : String
  url : String
deriving Repr, DecidableEq

/-- One registered listener sink (an element of the global `listeners`
array).  `writeOk` says whether `r.write(chunk)` on this sink succeeds;
`sid` identifies the sink so we can record who received a chunk. -/
structure Sink where
  sid : Nat
  writeOk : Bool
deriving Repr, DecidableEq

/-- The mutable globals of the radio core (`listeners`, `isLive`,
`autodjTracks`, `currentAutoDJIndex`, `liveTitle`). -/
structure RadioState where
  listeners : List Sink
  isLive : Bool
  autodjTracks : List Track
  currentAutoDJIndex : Nat
  liveTitle : String
deriving Repr, DecidableEq

/-- The initial values of the globals at lines 62-66 of `src/index.js`. -/
def initState : RadioState :=
  { listeners := [], isLive := false, autodjTracks := [],
    currentAutoDJIndex := 0, liveTitle := "" }

/-- `listeners.forEach(r => r.write(chunk))` (lines 122 and 142).
JavaScript `forEach` visits the sinks in order, and an exception thrown by
the callback aborts the iteration and propagates: sinks after a failing
write are not visited.  Returns the ids of the sinks actually written and
whether the whole fan-out completed without throwing.  The `listeners`
array itself is never modified by this statement. -/
def broadcastTo : List Sink → List Nat × Bool
  | [] => ([], true)
  | s :: rest =>
    if s.writeOk then
      let r := broadcastTo rest
      (s.sid :: r.1, r.2)
    else ([], false)

/-- Environment snapshot for one iteration of the `for await` chunk loop
(lines 112-123): the chunk read from the response body, the value of
`isLive` observed at line 113, and the contents of `listeners` observed at
lines 117/122 for this iteration. -/
structure ChunkStep where
  chunk : Nat
  liveNow : Bool
  listenersNow : List Sink
deriving Repr, DecidableEq

/-- How the chunk loop ended: ran off the end of the stream, `break` on
`isLive`, or an exception from a sink write (caught at line 124). -/
inductive StreamOutcome where
  | finished
  | brokeLive
  | threw
deriving Repr, DecidableEq

/-- The `for await (const chunk of reader)` body (lines 112-123):
`if (isLive) { trackFinished = false; break; }`, then
`if (listeners.length === 0) { await sleep(1000); continue; }` — note the
`continue` advances the iterator, so that chunk is consumed without being
written — else `listeners.forEach(r => r.write(chunk))`, whose exception
aborts the loop.  Returns the outcome and, per broadcast chunk, the sink
ids it was written to. -/
def streamChunks : List ChunkStep → StreamOutcome × List (Nat × List Nat)
  | [] => (StreamOutcome.finished, [])
  | s :: rest =>
    if s.liveNow then (StreamOutcome.brokeLive, [])
    else if s.listenersNow.length = 0 then streamChunks rest
    else
      let b := broadcastTo s.listenersNow
      if b.2 then
        let r := streamChunks rest
        (r.1, (s.chunk, b.1) :: r.2)
      else (StreamOutcome.threw, [(s.chunk, b.1)])

/-- `autodjTracks[currentAutoDJIndex % autodjTracks.length]`
(lines 104 and 183). -/
def selectedTrack (st : RadioState) : Track :=
  st.autodjTracks.getD (st.currentAutoDJIndex % st.autodjTracks.length)
    { title := "", url := "" }

/-- Environment for one pass of the `while (true)` body of `autoDJLoop`:
the `isLive` and `listeners` values read at lines 94 and 99, and the
outcome of `fetch(track.url)` — `Except.error` for a rejected fetch,
`Except.ok steps` for a byte stream delivered as `steps`. -/
structure CycleEnv where
  liveAtTop : Bool
  listenersAtTop : List Sink
  fetchResult : Except Unit (List ChunkStep)
deriving Repr

/-- One pass of the `autoDJLoop` body (lines 92-133).  Returns the new
state, the track selected for playback (`none` when the pass only slept),
and the chunks broadcast with their recipients.  `trackFinished` starts
`true`, is cleared on a live break or on a caught exception (fetch error
or sink-write throw), and `currentAutoDJIndex` is incremented only when it
survives (lines 107, 113-115, 124-127, 130-132). -/
def autoDJCycle (st : RadioState) (env : CycleEnv) :
    RadioState × Option Track × List (Nat × List Nat) :=
  if env.liveAtTop ∨ st.autodjTracks.length = 0 then (st, none, [])
  else if env.listenersAtTop.length = 0 then (st, none, [])
  else
    let track := selectedTrack st
    match env.fetchResult with
    | Except.error _ => (st, some track, [])
    | Except.ok steps =>
      let r := streamChunks steps
      if r.1 = StreamOutcome.finished then
        ({ st with currentAutoDJIndex := st.currentAutoDJIndex + 1 },
         some track, r.2)
      else (st, some track, r.2)

/-- Credentials extracted by `basic-auth` from a request: `none` when the
header is absent or unparseable. -/
structure Creds where
  name : String
  pass : String
deriving Repr, DecidableEq

/-- The test of `basicAuthMiddleware` (lines 27-34): the request passes
(`next()` is called) exactly when credentials are present and both the
user name and the password equal `"supernatural"`. -/
def basicAuthOk : Option Creds → Bool
  | none => false
  | some u => u.name = "supernatural" && u.pass = "supernatural"

/-- The challenge header set at line 30 before the 401 response. -/
def wwwAuthenticate : String := "Basic realm=\"Authorization Required\""

/-- The `POST /live` handler body (lines 140-144): set `isLive = true`,
then `listeners.forEach(r => r.write(req.body))`, then `sendStatus(200)`.
A synchronous throw from the forEach skips `sendStatus` and Express
answers the request with a 500.  Returns the new state, the response
status, and the ids of the sinks the chunk was written to. -/
def livePost (st : RadioState) (_body : Nat) : RadioState × Nat × List Nat :=
  let st' := { st with isLive := true }
  let b := broadcastTo st'.listeners
  (st', (if b.2 then 200 else 500), b.1)

/-- The full `/live` pipeline (line 138 + lines 140-144): the basic-auth
middleware runs first; on failure the response is a 401 carrying the
`WWW-Authenticate` challenge header and the handler never runs.  Result:
(state, status, challenge header if any, sink ids written). -/
def livePipeline (st : RadioState) (creds : Option Creds) (body : Nat) :
    RadioState × Nat × Option String × List Nat :=
  if basicAuthOk creds then
    let r := livePost st body
    (r.1, r.2.1, none, r.2.2)
  else (st, 401, some wwwAuthenticate, [])

/-- `GET /listen` (lines 146-162): the response sink is appended to
`listeners` (`listeners.push(res)`). -/
def listen (st : RadioState) (s : Sink) : RadioState :=
  { st with listeners := st.listeners ++ [s] }

/-- The `req.on('close')` handler (lines 159-161):
`listeners = listeners.filter(r => r !== res)`. -/
def disconnect (st : RadioState) (s : Sink) : RadioState :=
  { st with listeners := st.listeners.filter (fun r => r ≠ s) }

/-- A JSON value as far as the title validation at line 166 can tell one
apart: we keep the JavaScript types that matter to `!title` and
`typeof title !== 'string'`. -/
inductive JSVal where
  | undef
  | jsnull
  | str (s : String)
  | num (n : Int)
  | bool (b : Bool)
deriving Repr, DecidableEq

/-- JavaScript truthiness of a `JSVal` (`undefined`, `null`, `""`, `0`
and `false` are falsy). -/
def jsTruthy : JSVal → Bool
  | JSVal.undef => false
  | JSVal.jsnull => false
  | JSVal.str s => !(s = "")
  | JSVal.num n => !(n = 0)
  | JSVal.bool b => b

/-- `typeof title === 'string'`. -/
def isStr : JSVal → Bool
  | JSVal.str _ => true
  | _ => false

/-- The string payload of a `JSVal`, defaulting to `""` off strings; only
consulted after `isStr` has held. -/
def strVal : JSVal → String
  | JSVal.str s => s
  | _ => ""

/-- The guard at line 166: `!title || typeof title !== 'string'`. -/
def titleRejected (title : JSVal) : Bool :=
  !jsTruthy title || !isStr title

/-- `POST /update-live-title` (lines 164-172): on a rejected title,
status 400 and no state change; otherwise `liveTitle = title` and
status 200. -/
def updateLiveTitle (st : RadioState) (title : JSVal) : RadioState × Nat :=
  if titleRejected title then (st, 400)
  else ({ st with liveTitle := strVal title }, 200)

/-- A `/current-track` response: HTTP status plus the body's payload (the
`currentTrackTitle` on 200, the `message` on 404). -/
structure CTResp where
  status : Nat
  body : String
deriving Repr, DecidableEq

/-- `GET /current-track` (lines 174-186): when live, the ternary
`liveTitle ? json : 404` (the empty string is falsy); when not live, 404
if the catalog is empty, else the title of the track at
`currentAutoDJIndex % autodjTracks.length`. -/
def currentTrack (st : RadioState) : CTResp :=
  if st.isLive then
    if st.liveTitle = "" then
      { status := 404, body := "Live stream is on, but no title set." }
    else { status := 200, body := st.liveTitle }
  else
    if st.autodjTracks.length = 0 then
      { status := 404, body := "No AutoDJ track loaded." }
    else { status := 200, body := (selectedTrack st).title }

/-- An `<item>` of the RSS feed as `xml2js` presents it:
`item.title[0]` and `item.enclosure[0].$.url` (lines 76-77). -/
structure RSSItem where
  title : String
  url : String
deriving Repr, DecidableEq

/-- The outcome of the fetch + `xml2js.parseString` part of `loadRSS`:
`Except.error ()` when `fetch`/`res.text()` rejects; `Except.ok (Except.error ())`
when the parser reports an error (`err` non-null at line 74);
`Except.ok (Except.ok items)` when parsing succeeds, where `items` is the
value of `result.rss.channel[0].item` — `none` when the channel has no
`<item>` children (with `explicitArray`, `xml2js` then creates no `item`
key at all, so the access yields `undefined`), `some l` (with `l`
non-empty in any run produced by `xml2js`) otherwise. -/
def RSSResult := Except Unit (Except Unit (Option (List RSSItem)))

/-- `loadRSS` (lines 69-84) acting on the `autodjTracks` global.  A fetch
rejection lands in the `catch` (line 81): catalog untouched.  A parse
error returns from the callback at line 74: catalog untouched.  When the
parsed channel has no `item` key, `result.rss.channel[0].item` is
`undefined` and `.map` throws a TypeError; `xml2js` rethrows it out of
`parseString` (the sax parser has already ended), so the outer `catch`
swallows it at line 81: catalog untouched.  Only a parsed feed with an
`item` array replaces the catalog, wholesale, with the mapped tracks. -/
def loadRSS (tracks : List Track) (res : RSSResult) : List Track :=
  match res with
  | Except.error _ => tracks
  | Except.ok (Except.error _) => tracks
  | Except.ok (Except.ok none) => tracks
  | Except.ok (Except.ok (some items)) =>
    items.map (fun it => { title := it.title, url := it.url })

/-- One stored attendance record (`listener_attendance` collection,
line 156): the listener's IP and an ISO-UTC timestamp string. -/
structure AttendanceRec where
  ip : String
  timestamp : String
deriving Repr, DecidableEq

/-- A `/listener-stats` response: live count, ranged distinct-IP count,
or the 500 taken when the aggregation throws. -/
inductive StatsResp where
  | active (n : Nat)
  | ranged (n : Nat)
  | err
deriving Repr, DecidableEq

/-- Truthiness of an Express query parameter: `req.query.start` is
`undefined` when absent, and the empty string is falsy too. -/
def qTruthy : Option String → Bool
  | none => false
  | some s => !(s = "")

/-- `GET /listener-stats` (lines 189-203): `if (!start || !end)` answer
with `listeners.length`; otherwise run the aggregation — match records
with `start <= timestamp <= end` (string comparison, `$gte`/`$lte`),
group by IP, and answer with the number of groups — or a 500 if it
throws (`db` is the aggregation input; `none` models the throw). -/
def listenerStats (st : RadioState) (startQ endQ : Option String)
    (db : Option (List AttendanceRec)) : StatsResp :=
  if !qTruthy startQ || !qTruthy endQ then StatsResp.active st.listeners.length
  else
    match db with
    | none => StatsResp.err
    | some recs =>
      let s := startQ.getD ""
      let e := endQ.getD ""
      StatsResp.ranged
        (((recs.filter (fun r => s ≤ r.timestamp ∧ r.timestamp ≤ e)).map
          (fun r => r.ip)).dedup.length)

/-- Every operation of the program that can touch the radio globals, for
the reachable-state induction behind the stickiness of `isLive`. -/
inductive Event where
  | livePush (creds : Option Creds) (body : Nat)
  | listenerConnect (s : Sink)
  | listenerClose (s : Sink)
  | updateTitle (v : JSVal)
  | rssRefresh (res : RSSResult)
  | djCycle (env : CycleEnv)
  | currentTrackQuery
  | statsQuery (startQ endQ : Option String) (db : Option (List AttendanceRec))

/-- State transition of one event, composed from the handler models
above.  The two query endpoints read but never write the globals. -/
def step (st : RadioState) : Event → RadioState
  | Event.livePush creds body => (livePipeline st creds body).1
  | Event.listenerConnect s => listen st s
  | Event.listenerClose s => disconnect st s
  | Event.updateTitle v => (updateLiveTitle st v).1
  | Event.rssRefresh res => { st with autodjTracks := loadRSS st.autodjTracks res }
  | Event.djCycle env => (autoDJCycle st env).1
  | Event.currentTrackQuery => st
  | Event.statsQuery _ _ _ => st

/-- Run a sequence of events from a state. -/
def runTrace (st : RadioState) (evs : List Event) : RadioState :=
  evs.foldl step st

/-- A sink whose `write` throws. -/
def badSink : Sink := { sid := 0, writeOk := false }

/-- A sink whose `write` succeeds. -/
def goodSink : Sink := { sid := 1, writeOk := true }

/-- A healthy connected listener for exercising the scheduler. -/
def oneSink : Sink := { sid := 2, writeOk := true }

/-- A maximally benign scheduler environment: not live, one healthy
listener, and a one-chunk stream delivered without incident. -/
def benignEnv : CycleEnv :=
  { liveAtTop := false, listenersAtTop := [oneSink],
    fetchResult :=
      Except.ok [{ chunk := 0, liveNow := false, listenersNow := [oneSink] }] }

/-- A chunk-loop iteration that cannot end the track early: no live
takeover observed, and either no listeners (the chunk is skipped) or
every write succeeds. -/
def benignStep (s : ChunkStep) : Prop :=
  s.liveNow = false ∧
    (s.listenersNow.length = 0 ∨ s.listenersNow.all (fun k => k.writeOk) = true)

instance (s : ChunkStep) : Decidable (benignStep s) := by
  unfold benignStep
  infer_instance

/-- A sample catalog entry. -/
def tA : Track := { title := "A", url := "urlA" }

/-- `forEach`-with-write characterised: the sinks written are the longest
all-ok prefix, and the fan-out completes iff every write succeeds. -/
theorem broadcastTo_eq (l : List Sink) :
    broadcastTo l =
      ((l.takeWhile (fun s => s.writeOk)).map Sink.sid,
       l.all (fun s => s.writeOk)) := by
  induction l with
  | nil => rfl
  | cons a rest ih =>
    by_cases ha : a.writeOk <;>
      simp [broadcastTo, ha, ih, List.takeWhile_cons]

/-- A chunk loop that runs to end-of-stream never observed `isLive`. -/
theorem streamChunks_finished_no_live (steps : List ChunkStep)
    (h : (streamChunks steps).1 = StreamOutcome.finished) :
    ∀ s ∈ steps, s.liveNow = false := by
  induction steps with
  | nil => intro s hs; cases hs
  | cons a rest ih =>
    intro s hs
    by_cases hla : a.liveNow
    · simp [streamChunks, hla] at h
    · rcases List.mem_cons.mp hs with rfl | hs
      · simpa using hla
      · by_cases hlen : a.listenersNow.length = 0
        · exact ih (by simpa [streamChunks, hla, hlen] using h) s hs
        · by_cases hb : (broadcastTo a.listenersNow).2
          · exact ih (by simpa [streamChunks, hla, hlen, hb] using h) s hs
          · simp [streamChunks, hla, hlen, hb] at h

/-- One scheduler pass either leaves the state alone or only bumps the
cursor. -/
theorem autoDJCycle_state_cases (st : RadioState) (env : CycleEnv) :
    (autoDJCycle st env).1 = st ∨
      (autoDJCycle st env).1 =
        { st with currentAutoDJIndex := st.currentAutoDJIndex + 1 } := by
  unfold autoDJCycle
  split
  · exact Or.inl rfl
  · split
    · exact Or.inl rfl
    · cases h : env.fetchResult with
      | error e => exact Or.inl rfl
      | ok steps =>
        dsimp only
        split
        · exact Or.inr rfl
        · exact Or.inl rfl

/-- C3: an ingest push whose basic-auth credentials are absent or
incorrect is answered 401 with the `WWW-Authenticate` challenge header,
leaves the state unchanged (in particular `isLive` is not set), and
writes zero chunks to any registered sink. -/
theorem ingest_auth_rejection (st : RadioState) (creds : Option Creds)
    (body : Nat)
    (h : creds = none ∨ ∃ u, creds = some u ∧
           ¬(u.name = "supernatural" ∧ u.pass = "supernatural")) :
    (livePipeline st creds body).1 = st ∧
    (livePipeline st creds body).2.1 = 401 ∧
    (livePipeline st creds body).2.2.1 = some wwwAuthenticate ∧
    (livePipeline st creds body).2.2.2 = [] := by
  have hauth : basicAuthOk creds = false := by
    rcases h with rfl | ⟨u, rfl, hu⟩
    · rfl
    · simp [basicAuthOk]
      intro hn
      exact fun hp => hu ⟨hn, hp⟩
  simp [livePipeline, hauth]

/-- Witness for `ingest_auth_rejection`: a push with no credentials at
all, against a state with one registered listener. -/
theorem ingest_auth_rejection_witness :
    (livePipeline { initState with listeners := [goodSink] } none 5).1 =
        { initState with listeners := [goodSink] } ∧
    (livePipeline { initState with listeners := [goodSink] } none 5).2.1 = 401 ∧
    (livePipeline { initState with listeners := [goodSink] } none 5).2.2.1 =
        some wwwAuthenticate ∧
    (livePipeline { initState with listeners := [goodSink] } none 5).2.2.2 = [] :=
  ingest_auth_rejection { initState with listeners := [goodSink] } none 5
    (Or.inl rfl)

/-- C6: `/current-track` returns the live title exactly when live with a
non-empty title; when live with an empty title it returns the "no title
set" 404 (for every state, so in particular also when the catalog is
non-empty); when not live with an empty catalog it returns the "no
AutoDJ track loaded" 404; and the two 404 messages differ. -/
theorem current_track_distinguishes (st : RadioState) :
    (st.isLive = true → st.liveTitle ≠ "" →
       currentTrack st = { status := 200, body := st.liveTitle }) ∧
    (st.isLive = true → st.liveTitle = "" →
       currentTrack st =
         { status := 404, body := "Live stream is on, but no title set." }) ∧
    (st.isLive = false → st.autodjTracks = [] →
       currentTrack st =
         { status := 404, body := "No AutoDJ track loaded." }) ∧
    ("Live stream is on, but no title set." : String) ≠
      "No AutoDJ track loaded." := by
  refine ⟨?_, ?_, ?_, by decide⟩
  · intro hl ht; simp [currentTrack, hl, ht]
  · intro hl ht; simp [currentTrack, hl, ht]
  · intro hl ht; simp [currentTrack, hl, ht]

/-- Witness for `current_track_distinguishes`: a live state with an
empty title but a non-empty catalog still answers "no title set". -/
theorem current_track_distinguishes_witness :
    currentTrack { initState with isLive := true, autodjTracks := [tA] } =
      { status := 404, body := "Live stream is on, but no title set." } :=
  (current_track_distinguishes
      { initState with isLive := true, autodjTracks := [tA] }).2.1 rfl rfl

/-- C7 counterexample: the empty string is present and of string type,
yet `POST /update-live-title` rejects it with 400 (the `!title` guard
also fires on the falsy empty string), refuting "rejected iff the title
field is missing or not a string". -/
theorem title_update_empty_string_cex :
    (updateLiveTitle initState (JSVal.str "")).2 = 400 ∧
    isStr (JSVal.str "") = true ∧
    JSVal.str "" ≠ JSVal.undef ∧ JSVal.str "" ≠ JSVal.jsnull := by
  refine ⟨rfl, rfl, by decide, by decide⟩

/-- C7 amended: the title update is rejected with 400 exactly when the
value is not a string or is the empty string; a rejection leaves
`liveTitle` unchanged, and otherwise `liveTitle` is set to the given
string and the request is answered 200. -/
theorem title_update_validation (st : RadioState) (title : JSVal) :
    ((updateLiveTitle st title).2 = 400 ↔
       (isStr title = false ∨ strVal title = "")) ∧
    ((updateLiveTitle st title).2 = 400 → (updateLiveTitle st title).1 = st) ∧
    ((updateLiveTitle st title).2 ≠ 400 →
       (updateLiveTitle st title).2 = 200 ∧
       (updateLiveTitle st title).1 = { st with liveTitle := strVal title }) := by
  cases title with
  | undef => simp [updateLiveTitle, titleRejected, jsTruthy, isStr, strVal]
  | jsnull => simp [updateLiveTitle, titleRejected, jsTruthy, isStr, strVal]
  | num n => simp [updateLiveTitle, titleRejected, jsTruthy, isStr, strVal]
  | bool b => simp [updateLiveTitle, titleRejected, jsTruthy, isStr, strVal]
  | str x =>
    by_cases hx : x = ""
    · subst hx
      simp [updateLiveTitle, titleRejected, jsTruthy, isStr, strVal]
    · simp [updateLiveTitle, titleRejected, jsTruthy, isStr, strVal, hx]

/-- Witness for `title_update_validation`: updating with the non-empty
string "hello" succeeds and stores it. -/
theorem title_update_validation_witness :
    (updateLiveTitle initState (JSVal.str "hello")).2 = 200 ∧
    (updateLiveTitle initState (JSVal.str "hello")).1 =
      { initState with liveTitle := "hello" } := by
  have h := (title_update_validation initState (JSVal.str "hello")).2.2
    (by decide)
  simpa [strVal] using h

/-- C5 counterexample: a successfully fetched and parsed feed containing
zero tracks (no `item` key, so the mapping step throws and is caught)
leaves a non-empty catalog exactly as it was — it is not replaced with
the empty sequence. -/
theorem empty_feed_keeps_catalog_cex :
    loadRSS [tA] (Except.ok (Except.ok none)) = [tA] ∧
    ([tA] : List Track) ≠ [] := by
  exact ⟨rfl, by decide⟩

/-- C5 amended: every failing refresh — fetch rejection, parse error, or
a parsed feed with zero items (whose `item` access yields `undefined` and
whose `.map` therefore throws, caught by the outer handler) — leaves the
catalog untouched; a parsed feed with an item list replaces the catalog
wholesale with exactly its mapped tracks; and the scheduler treats an
empty catalog as a sleep-and-retry wait state, not an error (the cycle
changes nothing, selects nothing, writes nothing). -/
theorem rss_refresh_policy (tracks : List Track) :
    loadRSS tracks (Except.error ()) = tracks ∧
    loadRSS tracks (Except.ok (Except.error ())) = tracks ∧
    loadRSS tracks (Except.ok (Except.ok none)) = tracks ∧
    (∀ items, loadRSS tracks (Except.ok (Except.ok (some items))) =
        items.map (fun it => { title := it.title, url := it.url })) ∧
    (∀ st env, st.autodjTracks = [] →
        (autoDJCycle st env).1 = st ∧ (autoDJCycle st env).2.1 = none ∧
        (autoDJCycle st env).2.2 = []) := by
  refine ⟨rfl, rfl, rfl, fun items => rfl, ?_⟩
  intro st env hempty
  have h : st.autodjTracks.length = 0 := by simp [hempty]
  simp [autoDJCycle, h]

/-- Witness for `rss_refresh_policy`: concrete runs of every branch. -/
theorem rss_refresh_policy_witness :
    loadRSS [tA] (Except.error ()) = [tA] ∧
    (autoDJCycle initState benignEnv).1 = initState :=
  ⟨(rss_refresh_policy [tA]).1,
   ((rss_refresh_policy [tA]).2.2.2.2 initState benignEnv rfl).1⟩

/-- C10: `/listener-stats` with exactly one of the `start`/`end` bounds
supplied answers with the live in-memory listener count, identically to
the no-bounds case; a ranged distinct-IP aggregation response can only
arise when both bounds are present. -/
theorem listener_stats_bounds (st : RadioState) (s : String)
    (db : Option (List AttendanceRec)) :
    listenerStats st (some s) none db = StatsResp.active st.listeners.length ∧
    listenerStats st none (some s) db = StatsResp.active st.listeners.length ∧
    listenerStats st none none db = StatsResp.active st.listeners.length ∧
    (∀ a b n, listenerStats st a b db = StatsResp.ranged n →
        a ≠ none ∧ b ≠ none) := by
  refine ⟨by simp [listenerStats, qTruthy], by simp [listenerStats, qTruthy],
          by simp [listenerStats, qTruthy], ?_⟩
  intro a b n h
  cases a with
  | none => simp [listenerStats, qTruthy] at h
  | some av =>
    cases b with
    | none => simp [listenerStats, qTruthy] at h
    | some bv => exact ⟨by simp, by simp⟩

/-- Witness for `listener_stats_bounds`: with both bounds present and an
empty attendance table the response is ranged, so both bounds are
non-missing. -/
theorem listener_stats_bounds_witness :
    (some "a" : Option String) ≠ none ∧ (some "b" : Option String) ≠ none :=
  (listener_stats_bounds initState "a" (some [])).2.2.2
    (some "a") (some "b") 0 rfl

/-- C2 counterexample: with registered sinks `[badSink, goodSink]` where
the first write throws, a live push writes the chunk to no other sink
(`goodSink` receives nothing), the push is answered 500 instead of 200
(the error propagates to the sender), and the failing sink is still in
the listener set afterwards — nothing is removed. -/
theorem broadcast_write_failure_cex :
    (livePost { initState with listeners := [badSink, goodSink] } 7).2.2 = [] ∧
    (livePost { initState with listeners := [badSink, goodSink] } 7).2.1 = 500 ∧
    (livePost { initState with listeners := [badSink, goodSink] } 7).1.listeners =
      [badSink, goodSink] := by
  decide

/-- C2 amended: a write failure during the fan-out aborts the `forEach`:
only the longest prefix of sinks with succeeding writes receives the
chunk, the live push is answered 500 rather than 200, no sink is removed
from the set, and in the AutoDJ chunk loop the same failure aborts the
stream with a caught exception (no later chunk is broadcast), marking the
track unfinished. -/
theorem broadcast_write_failure_behavior (st : RadioState) (body : Nat)
    (hbad : st.listeners.all (fun s => s.writeOk) = false) :
    (livePost st body).1 = { st with isLive := true } ∧
    (livePost st body).2.1 = 500 ∧
    (livePost st body).2.2 =
      (st.listeners.takeWhile (fun s => s.writeOk)).map Sink.sid ∧
    (livePost st body).1.listeners = st.listeners ∧
    (∀ s rest, s.liveNow = false → s.listenersNow.length ≠ 0 →
        (broadcastTo s.listenersNow).2 = false →
        streamChunks (s :: rest) =
          (StreamOutcome.threw, [(s.chunk, (broadcastTo s.listenersNow).1)])) := by
  refine ⟨rfl, ?_, ?_, rfl, ?_⟩
  · simp [livePost, broadcastTo_eq, hbad]
  · simp [livePost, broadcastTo_eq]
  · intro s rest hlive hlen hb
    simp [streamChunks, hlive, hlen, hb]

/-- Witness for `broadcast_write_failure_behavior` at the two-sink
state. -/
theorem broadcast_write_failure_behavior_witness :
    (livePost { initState with listeners := [badSink, goodSink] } 3).2.1 = 500 :=
  (broadcast_write_failure_behavior
      { initState with listeners := [badSink, goodSink] } 3 (by decide)).2.1

/-- C4 counterexample: a two-chunk stream whose first chunk arrives while
the listener count is zero reaches end-of-stream, but chunk 10 is
silently dropped (the `continue` after the sleep advances the iterator):
only chunk 11 is ever broadcast, refuting "no chunk is silently
dropped". -/
theorem zero_listener_drop_cex :
    (streamChunks
        [{ chunk := 10, liveNow := false, listenersNow := [] },
         { chunk := 11, liveNow := false, listenersNow := [goodSink] }]).1 =
      StreamOutcome.finished ∧
    (streamChunks
        [{ chunk := 10, liveNow := false, listenersNow := [] },
         { chunk := 11, liveNow := false, listenersNow := [goodSink] }]).2 =
      [(11, [1])] ∧
    ¬(10 ∈ ((streamChunks
        [{ chunk := 10, liveNow := false, listenersNow := [] },
         { chunk := 11, liveNow := false, listenersNow := [goodSink] }]).2.map
          Prod.fst)) := by
  decide

/-- C4 amended: when the listener count drops to zero mid-track the
scheduler sleeps one second and then skips that chunk — every chunk
encountered with zero listeners is dropped, not replayed — while
forwarding resumes with the later chunks once listeners reappear; if the
stream reaches end-of-stream the track still counts as fully played and
the cursor advances by exactly one. -/
theorem zero_listener_pause_behavior (steps : List ChunkStep)
    (hben : ∀ s ∈ steps, benignStep s) :
    (streamChunks steps).1 = StreamOutcome.finished ∧
    (streamChunks steps).2 =
      (steps.filter (fun s => !(s.listenersNow.length = 0))).map
        (fun s => (s.chunk, s.listenersNow.map Sink.sid)) ∧
    (∀ st env, env.liveAtTop = false → st.autodjTracks.length ≠ 0 →
        env.listenersAtTop.length ≠ 0 → env.fetchResult = Except.ok steps →
        (autoDJCycle st env).1.currentAutoDJIndex =
          st.currentAutoDJIndex + 1) := by
  have main : ∀ l : List ChunkStep, (∀ s ∈ l, benignStep s) →
      (streamChunks l).1 = StreamOutcome.finished ∧
      (streamChunks l).2 =
        (l.filter (fun s => !(s.listenersNow.length = 0))).map
          (fun s => (s.chunk, s.listenersNow.map Sink.sid)) := by
    intro l hl
    induction l with
    | nil => exact ⟨rfl, rfl⟩
    | cons a rest ih =>
      obtain ⟨hla, hcase⟩ := hl a (List.mem_cons_self a rest)
      have ihr := ih (fun s hs => hl s (List.mem_cons_of_mem a hs))
      by_cases hlen : a.listenersNow.length = 0
      · have hskip : streamChunks (a :: rest) = streamChunks rest := by
          simp [streamChunks, hla, hlen]
        have hfil : (a :: rest).filter (fun s => !(s.listenersNow.length = 0)) =
            rest.filter (fun s => !(s.listenersNow.length = 0)) :=
          List.filter_cons_of_neg (by simp [hlen])
        rw [hskip, hfil]
        exact ihr
      · have hok : (a.listenersNow.all fun k => k.writeOk) = true := by
          rcases hcase with h | h
          · exact absurd h hlen
          · exact h
        have htw : a.listenersNow.takeWhile (fun s => s.writeOk) =
            a.listenersNow :=
          List.takeWhile_eq_self_iff.mpr (by
            intro x hx
            simpa using List.all_eq_true.mp hok x hx)
        have hbt : broadcastTo a.listenersNow =
            (a.listenersNow.map Sink.sid, true) := by
          rw [broadcastTo_eq, htw, hok]
        have hstep : streamChunks (a :: rest) =
            ((streamChunks rest).1,
             (a.chunk, a.listenersNow.map Sink.sid) :: (streamChunks rest).2) := by
          simp [streamChunks, hla, hlen, hbt]
        have hfil : (a :: rest).filter (fun s => !(s.listenersNow.length = 0)) =
            a :: rest.filter (fun s => !(s.listenersNow.length = 0)) :=
          List.filter_cons_of_pos (by simp [hlen])
        rw [hstep, hfil]
        exact ⟨ihr.1, by simp [ihr.2]⟩
  have hmain := main steps hben
  refine ⟨hmain.1, hmain.2, ?_⟩
  intro st env hlv ht hc hfetch
  have ht' : st.autodjTracks ≠ [] := by
    intro h
    exact ht (by simp [h])
  simp [autoDJCycle, hlv, ht, ht', hc, hfetch, hmain.1]

/-- Witness for `zero_listener_pause_behavior`: a stream whose first
chunk sees zero listeners and whose second sees one healthy listener
still finishes, dropping only the first chunk. -/
theorem zero_listener_pause_behavior_witness :
    (streamChunks
        [{ chunk := 20, liveNow := false, listenersNow := [] },
         { chunk := 21, liveNow := false, listenersNow := [goodSink] }]).1 =
      StreamOutcome.finished :=
  (zero_listener_pause_behavior
      [{ chunk := 20, liveNow := false, listenersNow := [] },
       { chunk := 21, liveNow := false, listenersNow := [goodSink] }]
      (by decide)).1

/-- C8: `isLive` is sticky — it starts `false`, every accepted ingest
push sets it `true`, no operation of the program ever sets it back to
`false` (single-event monotonicity), and hence along every event trace
from a state where it is `true` it stays `true`. -/
theorem isLive_sticky :
    initState.isLive = false ∧
    (∀ st creds body, basicAuthOk creds = true →
        (step st (Event.livePush creds body)).isLive = true) ∧
    (∀ st e, st.isLive = true → (step st e).isLive = true) ∧
    (∀ st evs, st.isLive = true → (runTrace st evs).isLive = true) := by
  have hpush : ∀ (st : RadioState) (creds : Option Creds) (body : Nat),
      basicAuthOk creds = true →
      (step st (Event.livePush creds body)).isLive = true := by
    intro st creds body hcred
    show (livePipeline st creds body).1.isLive = true
    unfold livePipeline
    rw [if_pos hcred]
    rfl
  have hmono : ∀ st e, st.isLive = true → (step st e).isLive = true := by
    intro st e h
    cases e with
    | livePush creds body =>
      by_cases hcred : basicAuthOk creds
      · exact hpush st creds body hcred
      · show (livePipeline st creds body).1.isLive = true
        unfold livePipeline
        rw [if_neg (by simp [hcred])]
        exact h
    | listenerConnect s => exact h
    | listenerClose s => exact h
    | updateTitle v =>
      show (updateLiveTitle st v).1.isLive = true
      unfold updateLiveTitle
      by_cases hr : titleRejected v
      · rw [if_pos hr]
        exact h
      · rw [if_neg (by simp [hr])]
        exact h
    | rssRefresh res => exact h
    | djCycle env =>
      show (autoDJCycle st env).1.isLive = true
      rcases autoDJCycle_state_cases st env with hcase | hcase <;>
        rw [hcase] <;> exact h
    | currentTrackQuery => exact h
    | statsQuery a b db => exact h
  refine ⟨rfl, hpush, hmono, ?_⟩
  intro st evs h
  induction evs generalizing st with
  | nil => exact h
  | cons e rest ih =>
    have h1 := hmono st e h
    exact ih (step st e) h1

/-- Witness for `isLive_sticky`: a correctly authenticated push turns the
flag on, and it survives a further title update and scheduler pass. -/
theorem isLive_sticky_witness :
    (step initState (Event.livePush
        (some { name := "supernatural", pass := "supernatural" }) 1)).isLive =
      true ∧
    (runTrace { initState with isLive := true }
        [Event.updateTitle (JSVal.str "x"), Event.djCycle benignEnv]).isLive =
      true :=
  ⟨isLive_sticky.2.1 initState
      (some { name := "supernatural", pass := "supernatural" }) 1 (by decide),
   isLive_sticky.2.2.2 { initState with isLive := true }
      [Event.updateTitle (JSVal.str "x"), Event.djCycle benignEnv] rfl⟩

/-- C1: in an eligible scheduler pass (not live at the top, non-empty
catalog, a listener present) the cursor advances exactly when the fetched
stream runs to end-of-stream (and then by exactly one); a stream that
finished never observed `isLive` mid-track; a fetch error leaves the
whole state unchanged; the pass plays the track at the cursor; and after
an interrupted pass, any later eligible pass selects the very same track
again (replaying from the stream's first chunk, since every pass fetches
the source afresh and consumes it from the head). -/
theorem autodj_full_play_cursor (st : RadioState) (env : CycleEnv)
    (hlv : env.liveAtTop = false) (ht : st.autodjTracks ≠ [])
    (hc : env.listenersAtTop.length ≠ 0) :
    (∀ steps, env.fetchResult = Except.ok steps →
        (autoDJCycle st env).1 =
          (if (streamChunks steps).1 = StreamOutcome.finished
           then { st with currentAutoDJIndex := st.currentAutoDJIndex + 1 }
           else st)) ∧
    (∀ steps, env.fetchResult = Except.ok steps →
        (streamChunks steps).1 = StreamOutcome.finished →
        ∀ s ∈ steps, s.liveNow = false) ∧
    (env.fetchResult = Except.error () → (autoDJCycle st env).1 = st) ∧
    ((autoDJCycle st env).2.1 = some (selectedTrack st)) ∧
    (∀ steps env2, env.fetchResult = Except.ok steps →
        (streamChunks steps).1 ≠ StreamOutcome.finished →
        env2.liveAtTop = false → env2.listenersAtTop.length ≠ 0 →
        (autoDJCycle ((autoDJCycle st env).1) env2).2.1 =
          some (selectedTrack st)) := by
  have ht0 : ¬st.autodjTracks.length = 0 := fun h =>
    ht (List.length_eq_zero.mp h)
  have hsel : ∀ (env' : CycleEnv) (st' : RadioState),
      env'.liveAtTop = false → env'.listenersAtTop.length ≠ 0 →
      st'.autodjTracks ≠ [] →
      (autoDJCycle st' env').2.1 = some (selectedTrack st') := by
    intro env' st' hl' hc' ht'
    have ht0' : ¬st'.autodjTracks.length = 0 := fun h =>
      ht' (List.length_eq_zero.mp h)
    unfold autoDJCycle
    rw [if_neg (by simp [hl', ht0']), if_neg hc']
    cases env'.fetchResult with
    | error e => rfl
    | ok steps =>
      dsimp only
      split
      · rfl
      · rfl
  have hmain : ∀ steps, env.fetchResult = Except.ok steps →
      (autoDJCycle st env).1 =
        (if (streamChunks steps).1 = StreamOutcome.finished
         then { st with currentAutoDJIndex := st.currentAutoDJIndex + 1 }
         else st) := by
    intro steps hf
    unfold autoDJCycle
    rw [if_neg (by simp [hlv, ht0]), if_neg hc, hf]
    dsimp only
    split
    · rfl
    · rfl
  refine ⟨hmain, ?_, ?_, hsel env st hlv hc ht, ?_⟩
  · intro steps _ hfin
    exact streamChunks_finished_no_live steps hfin
  · intro hf
    unfold autoDJCycle
    rw [if_neg (by simp [hlv, ht0]), if_neg hc, hf]
  · intro steps env2 hf hnf hl2 hc2
    have h1 : (autoDJCycle st env).1 = st := by
      rw [hmain steps hf, if_neg hnf]
    rw [h1]
    exact hsel env2 st hl2 hc2 ht

/-- Witness for `autodj_full_play_cursor`: a one-track catalog and a
benign pass advance the cursor from 0 to 1. -/
theorem autodj_full_play_cursor_witness :
    (autoDJCycle { initState with autodjTracks := [tA] } benignEnv).1 =
      { initState with autodjTracks := [tA], currentAutoDJIndex := 1 } := by
  have h := (autodj_full_play_cursor { initState with autodjTracks := [tA] }
      benignEnv rfl (by decide) (by decide)).1
      [{ chunk := 0, liveNow := false, listenersNow := [oneSink] }] rfl
  rw [h]
  decide

/-- C9: an eligible pass plays the track at
`currentAutoDJIndex % autodjTracks.length` (the `selectedTrack` of the
state), and with catalog `[A, B]`, cursor 0, no live takeover and no
interruptions, three successive passes play A, then B, then A again
(wraparound), the cursor moving to 1, 2, 3 — one advance per full
play. -/
theorem rotation_mod_wraparound :
    (∀ st env, env.liveAtTop = false → st.autodjTracks ≠ [] →
        env.listenersAtTop.length ≠ 0 →
        (autoDJCycle st env).2.1 = some (selectedTrack st)) ∧
    (∀ A B : Track,
        (autoDJCycle { initState with autodjTracks := [A, B] } benignEnv).2.1 = some A ∧
        (autoDJCycle { initState with autodjTracks := [A, B] } benignEnv).1 = { initState with autodjTracks := [A, B], currentAutoDJIndex := 1 } ∧
        (autoDJCycle { initState with autodjTracks := [A, B], currentAutoDJIndex := 1 } benignEnv).2.1 = some B ∧
        (autoDJCycle { initState with autodjTracks := [A, B], currentAutoDJIndex := 1 } benignEnv).1 = { initState with autodjTracks := [A, B], currentAutoDJIndex := 2 } ∧
        (autoDJCycle { initState with autodjTracks := [A, B], currentAutoDJIndex := 2 } benignEnv).2.1 = some A ∧
        (autoDJCycle { initState with autodjTracks := [A, B], currentAutoDJIndex := 2 } benignEnv).1 = { initState with autodjTracks := [A, B], currentAutoDJIndex := 3 }) := by
  constructor
  · intro st env hl ht hc
    have ht0 : ¬st.autodjTracks.length = 0 := fun h =>
      ht (List.length_eq_zero.mp h)
    unfold autoDJCycle
    rw [if_neg (by simp [hl, ht0]), if_neg hc]
    cases env.fetchResult with
    | error e => rfl
    | ok steps =>
      dsimp only
      split
      · rfl
      · rfl
  · intro A B
    refine ⟨?_, ?_, ?_, ?_, ?_, ?_⟩ <;>
      simp [autoDJCycle, benignEnv, oneSink, streamChunks, broadcastTo,
        selectedTrack, initState]

/-- Witness for `rotation_mod_wraparound`: the selection rule applied at
a concrete eligible state. -/
theorem rotation_mod_wraparound_witness :
    (autoDJCycle { initState with autodjTracks := [tA] } benignEnv).2.1 =
      some (selectedTrack { initState with autodjTracks := [tA] }) :=
  rotation_mod_wraparound.1 { initState with autodjTracks := [tA] }
    benignEnv rfl (by decide) (by decide)
